import Mathlib

/-!
Verification development for `aprs2influxdb/__main__.py` (FaradayRF/clerk).

We give a shallow embedding of the ingestion pipeline of the program:

* `jsonToLineProtocol` — the record-to-line-protocol encoder, translated
  statement by statement from the Python source, with Python 2 dictionary,
  list-index and exception semantics made explicit;
* `callback` — the per-record consumer handler, with the storage write
  modelled as an oracle `String → Option WriteErr`;
* `consumerRun` — the consumption loop folding `callback` over the stream
  of decoded records, stopping at the first uncaught exception;
* `heartbeatIter` / `heartbeatTrace` — the heartbeat loop body and its
  iteration trace.

Decoded records are association lists from field names to `JVal`, a model of
the Python values aprslib actually delivers (strings, ints, lists, dicts,
None).  Exceptions are explicit (`PyErr`); a `try/except` of the source
becomes a `match` that catches exactly the exception classes the source
names.  Logging is modelled as a list of `(severity, item)` entries.
-/

/-- Model of the Python values occurring in a decoded aprslib record:
strings, integers, lists, string-keyed dicts, and `None`. -/
inductive JVal where
  | vstr (s : String)
  | vint (n : Int)
  | vlist (l : List JVal)
  | vdict (l : List (String × JVal))
  | vnone

/-- The Python record passed to the encoder: a string-keyed dictionary. -/
abbrev PyDict := List (String × JVal)

/-- The Python exception classes the program can raise or catch.
`keyError k` records the missing key. -/
inductive PyErr where
  | keyError (k : String)
  | indexError
  | typeError
  | unicodeError
  | attributeError
deriving DecidableEq, Repr

/-- `d[k]` on a Python dict: raises `KeyError` when the key is absent. -/
def pySub (d : PyDict) (k : String) : Except PyErr JVal :=
  match d.lookup k with
  | some v => .ok v
  | none => .error (.keyError k)

/-- `d.get(k)` on a Python dict: total, `None` when the key is absent. -/
def pyGet (d : PyDict) (k : String) : JVal :=
  (d.lookup k).getD JVal.vnone

/-- `d.get(k, default)` on a Python dict. -/
def pyGetD (d : PyDict) (k : String) (dflt : JVal) : JVal :=
  (d.lookup k).getD dflt

/-- `v[k]` for a string key on an arbitrary value: a dict looks the key up
(`KeyError` when absent); subscripting any other value by a string is a
`TypeError`. -/
def pySubK (v : JVal) (k : String) : Except PyErr JVal :=
  match v with
  | .vdict d => pySub d k
  | _ => .error .typeError

/-- `v[i]` for an integer index: list indexing (`IndexError` out of range);
indexing an int or `None` is a `TypeError`; an integer index into a
string-keyed dict misses (`KeyError`); string indexing yields the one-char
string. -/
def pyIndex (v : JVal) (i : Nat) : Except PyErr JVal :=
  match v with
  | .vlist l =>
      match l.get? i with
      | some x => .ok x
      | none => .error .indexError
  | .vstr s =>
      match s.data.get? i with
      | some c => .ok (.vstr (String.mk [c]))
      | none => .error .indexError
  | .vdict _ => .error (.keyError (toString i))
  | _ => .error .typeError

mutual
/-- Python `str(v)` / `"...{0}...".format(v)` rendering for the values the
encoder interpolates.  Strings render as themselves, ints and `None` as in
Python.  (A dict is never interpolated by the source on aprslib data; its
rendering is abstracted, and list elements are rendered with `pyStr` rather
than Python repr — the difference is only quoting of nested strings, which
no encoder path exercises on aprslib records.) -/
def pyStr : JVal → String
  | .vstr s => s
  | .vint n => toString n
  | .vnone => "None"
  | .vlist l => "[" ++ pyStrList l ++ "]"
  | .vdict _ => "<dict>"

/-- Comma-joined rendering of a Python list body. -/
def pyStrList : List JVal → String
  | [] => ""
  | [x] => pyStr x
  | x :: y :: xs => pyStr x ++ ", " ++ pyStrList (y :: xs)
end

/-- The one comparison the encoder performs, `v == "<string literal>"` in
Python: true exactly when `v` is that string (a non-string value never
equals a string). -/
def pyEqStr (v : JVal) (s : String) : Bool :=
  match v with
  | .vstr x => x == s
  | _ => false

/-- Python truthiness of a value. -/
def pyTruthy : JVal → Bool
  | .vstr s => !s.isEmpty
  | .vint n => n != 0
  | .vlist l => !l.isEmpty
  | .vdict l => !l.isEmpty
  | .vnone => false

/-- `s.encode('ascii', 'ignore')` on a Python 2 value: on an all-ASCII byte
string it returns the string itself; a byte outside ASCII makes the implicit
decode fail (`UnicodeError`).  Any non-string value — including the `None`
that `jsonData.get("comment")` returns for an absent comment — has no
`encode` attribute, so attribute lookup fails before any encode machinery
runs: `AttributeError`, which is a subclass of neither `UnicodeError` nor
`TypeError` and therefore escapes the source's handlers. -/
def pyEncodeAscii : JVal → Except PyErr String
  | .vstr s => if s.data.all (fun c => c.toNat < 128) then .ok s else .error .unicodeError
  | _ => .error .attributeError

/-- Log severities used by the program. -/
inductive LogLevel where
  | debug
  | info
  | warning
  | error
deriving DecidableEq, Repr

/-- What a log call receives: a packet (record), a produced line, a Python
exception, or a storage-write error message. -/
inductive LogItem where
  | packet (p : PyDict)
  | text (s : String)
  | pyErr (e : PyErr)
  | writeErr (msg : String)

/-- One emitted log entry: severity and logged item. -/
abbrev LogEntry := LogLevel × LogItem

/-- The three tag appends of the encoder.  The source wraps them in
`try/except KeyError`, but each uses `jsonData.get(...)`, which never raises:
an absent key renders as `None`.  The `try` is therefore dead and the block
is straight-line. -/
def tagList (jsonData : PyDict) : List String :=
  ["from=" ++ pyStr (pyGet jsonData "from"),
   "to=" ++ pyStr (pyGet jsonData "to"),
   "format=" ++ pyStr (pyGet jsonData "format")]

/-- The five numeric field appends, each `jsonData.get(key, 0)` — total,
defaulting to `0`; the surrounding `try/except KeyError` of the source is
likewise dead. -/
def numericFields (jsonData : PyDict) : List String :=
  ["latitude=" ++ pyStr (pyGetD jsonData "latitude" (.vint 0)),
   "longitude=" ++ pyStr (pyGetD jsonData "longitude" (.vint 0)),
   "posAmbiguity=" ++ pyStr (pyGetD jsonData "posambiguity" (.vint 0)),
   "altitude=" ++ pyStr (pyGetD jsonData "altitude" (.vint 0)),
   "speed=" ++ pyStr (pyGetD jsonData "speed" (.vint 0))]

/-- Run a sequence of `fields.append(expr)` statements whose expressions may
raise: appends succeed one by one until the first raising expression, whose
exception is reported alongside the fields appended so far (Python list
mutation keeps the earlier appends). -/
def appendUntilErr : List (Except PyErr String) → List String × Option PyErr
  | [] => ([], none)
  | .error e :: _ => ([], some e)
  | .ok s :: rest =>
      let (l, e) := appendUntilErr rest
      (s :: l, e)

/-- Body of the telemetry `try` block: evaluate
`jsonData["telemetry"]["seq"]`, and when truthy append `sequenceNumber`,
`analog1..analog5` (positional `vals[0]..vals[4]`) and `digital` in order.
Returns the fields appended before any exception, and the exception. -/
def telemetryRun (jsonData : PyDict) : List String × Option PyErr :=
  match pySub jsonData "telemetry" with
  | .error e => ([], some e)
  | .ok tele =>
    match pySubK tele "seq" with
    | .error e => ([], some e)
    | .ok seq =>
      if pyTruthy seq then
        appendUntilErr
          [.ok ("sequenceNumber=" ++ pyStr seq),
           ((pySubK tele "vals").bind (fun vs => pyIndex vs 0)).map
             (fun v => "analog1=" ++ pyStr v),
           ((pySubK tele "vals").bind (fun vs => pyIndex vs 1)).map
             (fun v => "analog2=" ++ pyStr v),
           ((pySubK tele "vals").bind (fun vs => pyIndex vs 2)).map
             (fun v => "analog3=" ++ pyStr v),
           ((pySubK tele "vals").bind (fun vs => pyIndex vs 3)).map
             (fun v => "analog4=" ++ pyStr v),
           ((pySubK tele "vals").bind (fun vs => pyIndex vs 4)).map
             (fun v => "analog5=" ++ pyStr v),
           (pySubK tele "bits").map (fun v => "digital=" ++ pyStr v)]
      else ([], none)

/-- The telemetry block with its handler: `except KeyError` logs the error
at debug severity ("Expect many KeyErrors for stations not sending
telemetry") and keeps the fields appended so far; any other exception
(e.g. `IndexError` from a short `vals` list) is uncaught. -/
def telemetryBlock (jsonData : PyDict) :
    List String × List LogEntry × Option PyErr :=
  match telemetryRun jsonData with
  | (fs, none) => (fs, [], none)
  | (fs, some (.keyError k)) =>
      (fs, [(LogLevel.debug, LogItem.pyErr (.keyError k))], none)
  | (fs, some e) => (fs, [], some e)

/-- `comment.replace("\"", "")` of the source: the pattern is the single
double-quote character and the replacement is empty, so the call removes
every double-quote character, i.e. filters them out of the string. -/
def pyRemoveQuotes (s : String) : String :=
  String.mk (s.data.filter (fun c => c != '"'))

/-- The comment `try` block with its handlers:
`comment = jsonData.get("comment").encode('ascii', 'ignore')`, and when the
result is truthy append `comment="<comment with embedded double quotes
removed>"`.  `UnicodeError` and `TypeError` are caught and logged at error
severity; anything else is uncaught — in particular the `AttributeError`
from `None.encode` when the record has no comment key, so every
uncompressed record lacking a comment makes the encoder raise. -/
def commentBlock (jsonData : PyDict) :
    List String × List LogEntry × Option PyErr :=
  match pyEncodeAscii (pyGet jsonData "comment") with
  | .ok c =>
      if !c.isEmpty then
        (["comment=\"" ++ pyRemoveQuotes c ++ "\""], [], none)
      else ([], [], none)
  | .error .unicodeError =>
      ([], [(LogLevel.error, LogItem.pyErr .unicodeError)], none)
  | .error .typeError =>
      ([], [(LogLevel.error, LogItem.pyErr .typeError)], none)
  | .error e => ([], [], some e)

/-- The encoder `jsonToLineProtocol(jsonData)`.  `jsonData["format"]` is read
by unguarded subscripting; for `"uncompressed"` records the tag clause, the
numeric fields, the telemetry block and the comment block are assembled and
`measurement + "," + tagStr + " " + fieldsStr` is returned; for any other
format the function falls through and returns `None`.  The result pairs the
returned value with the log entries the call emitted; an uncaught exception
is an `Except.error`. -/
def jsonToLineProtocol (jsonData : PyDict) :
    Except PyErr (Option String × List LogEntry) :=
  match pySub jsonData "format" with
  | .error e => .error e
  | .ok fmt =>
    if pyEqStr fmt "uncompressed" then
      match telemetryBlock jsonData with
      | (_, _, some e) => .error e
      | (teleFields, teleLogs, none) =>
        match commentBlock jsonData with
        | (_, _, some e) => .error e
        | (commentFields, commentLogs, none) =>
          .ok (some ("packet" ++ "," ++ ",".intercalate (tagList jsonData) ++ " " ++
                ",".intercalate (numericFields jsonData ++ teleFields ++ commentFields)),
               teleLogs ++ commentLogs)
    else
      .ok (none, [])

/-- The Python exceptions the storage write (`write_points`) can raise, as the
`callback` handlers distinguish them: a generic `StandardError` (caught by the
first handler), an `influxdb.exceptions.InfluxDBClientError` (a direct
`Exception` subclass, caught by the second handler), and any other exception
class, which no handler catches. -/
inductive WriteErr where
  | standardError (msg : String)
  | clientError (msg : String)
  | otherError (msg : String)

/-- An exception escaping `callback`: either a Python error from the encoder
or an uncaught storage-write error. -/
abbrev CallbackErr := Sum PyErr WriteErr

/-- The consumer handler `callback(packet)`.  The storage backend is external;
its per-line write outcome is an oracle `write : String → Option WriteErr`
(`none` = success).  The handler logs the packet at info severity, encodes it,
and when a line was produced logs it at debug severity and writes it; a
`StandardError` from the write is logged at error severity together with the
offending packet, an `InfluxDBClientError` is logged at error severity alone,
and in both cases the handler returns normally.  The result is the emitted
log entries plus any uncaught exception. -/
def callback (write : String → Option WriteErr) (packet : PyDict) :
    List LogEntry × Option CallbackErr :=
  let infoLog : LogEntry := (LogLevel.info, LogItem.packet packet)
  match jsonToLineProtocol packet with
  | .error e => ([infoLog], some (.inl e))
  | .ok (line?, encLogs) =>
    match line? with
    | none => (infoLog :: encLogs, none)
    | some line =>
      match write line with
      | none =>
          (infoLog :: encLogs ++ [(LogLevel.debug, LogItem.text line)], none)
      | some (.standardError m) =>
          (infoLog :: encLogs ++
             [(LogLevel.debug, LogItem.text line),
              (LogLevel.error, LogItem.writeErr m),
              (LogLevel.error, LogItem.packet packet)], none)
      | some (.clientError m) =>
          (infoLog :: encLogs ++
             [(LogLevel.debug, LogItem.text line),
              (LogLevel.error, LogItem.writeErr m)], none)
      | some (.otherError m) =>
          (infoLog :: encLogs ++ [(LogLevel.debug, LogItem.text line)],
           some (.inr (.otherError m)))

/-- The consumption loop `conn.consumer(callback, ...)` on a finite prefix of
the record stream: records are handled strictly in arrival order, each through
`callback`; an exception escaping the handler stops the loop.  Returns the
per-record logs of the records handled and the escaping exception, if any. -/
def consumerRun (write : String → Option WriteErr) :
    List PyDict → List (PyDict × List LogEntry) × Option CallbackErr
  | [] => ([], none)
  | p :: ps =>
    match callback write p with
    | (logs, some e) => ([(p, logs)], some e)
    | (logs, none) =>
      let (rest, e) := consumerRun write ps
      ((p, logs) :: rest, e)

/-- The records logged at error severity within a log stream. -/
def erroredPackets (logs : List LogEntry) : List PyDict :=
  logs.filterMap (fun entry =>
    match entry with
    | (LogLevel.error, LogItem.packet p) => some p
    | _ => none)

/-- The heartbeat status line,
`"<callsign>>APRS,TCPIP*:>aprs2influxdb heartbeat <timestamp>"`, with the
current integer epoch timestamp interpolated. -/
def heartbeatStatus (callsign : String) (timestamp : Int) : String :=
  callsign ++ ">APRS,TCPIP*:>aprs2influxdb heartbeat " ++ toString timestamp

/-- One observable iteration of the heartbeat loop: the line sent and the
duration then slept. -/
structure HeartbeatEvent where
  sent : String
  sleepSeconds : ℚ

/-- One pass of the heartbeat `while True` body at wall-clock time `now`:
compose the status line, send it, sleep `float(interval) * 60` seconds
(`interval` is the configured value in minutes, fractional values allowed;
the values of interest are exactly representable, so the conversion is
modelled over the rationals). -/
def heartbeatIter (callsign : String) (interval : ℚ) (now : Int) : HeartbeatEvent :=
  { sent := heartbeatStatus callsign now, sleepSeconds := interval * 60 }

/-- The infinite heartbeat loop as the trace of its iterations: `clock n` is
the integer epoch timestamp `int(time.time())` observed at iteration `n`; the
loop body never changes any state, so iteration `n` is `heartbeatIter` at
`clock n`. -/
def heartbeatTrace (callsign : String) (interval : ℚ) (clock : ℕ → Int)
    (n : ℕ) : HeartbeatEvent :=
  heartbeatIter callsign interval (clock n)

/-! ### Helper lemmas about the embedding -/

theorem pyEqStr_true_iff (v : JVal) (s : String) :
    pyEqStr v s = true ↔ v = JVal.vstr s := by
  cases v <;> simp [pyEqStr]

theorem intercalate_go_append (s x : String) (bs : List String) :
    ∀ acc : String, String.intercalate.go acc s (bs ++ [x]) =
      String.intercalate.go acc s bs ++ s ++ x := by
  induction bs with
  | nil => intro acc; simp [String.intercalate.go]
  | cons b bs ih =>
      intro acc
      simp only [List.cons_append, String.intercalate.go]
      exact ih (acc ++ s ++ b)

theorem intercalate_append_singleton (s x a : String) (as : List String) :
    s.intercalate ((a :: as) ++ [x]) = s.intercalate (a :: as) ++ s ++ x := by
  simp only [List.cons_append, String.intercalate]
  exact intercalate_go_append s x as a

theorem telemetryBlock_ne_keyError (r : PyDict) (k : String) :
    (telemetryBlock r).2.2 ≠ some (PyErr.keyError k) := by
  unfold telemetryBlock
  rcases htr : telemetryRun r with ⟨fs, oe⟩
  cases oe with
  | none => simp
  | some e => cases e <;> simp

theorem pyEncodeAscii_ne_keyError (v : JVal) (k : String) :
    pyEncodeAscii v ≠ .error (.keyError k) := by
  cases v <;> simp [pyEncodeAscii]
  split <;> simp

theorem pyEncodeAscii_ne_indexError (v : JVal) :
    pyEncodeAscii v ≠ .error .indexError := by
  cases v <;> simp [pyEncodeAscii]
  split <;> simp

theorem commentBlock_err_cases (r : PyDict) :
    (commentBlock r).2.2 = none ∨ (commentBlock r).2.2 = some PyErr.attributeError := by
  unfold commentBlock
  cases hen : pyEncodeAscii (pyGet r "comment") with
  | ok c => by_cases hic : c.isEmpty = true <;> simp [hic]
  | error e =>
      cases e with
      | keyError k => exact absurd hen (pyEncodeAscii_ne_keyError _ _)
      | indexError => exact absurd hen (pyEncodeAscii_ne_indexError _)
      | typeError => simp
      | unicodeError => simp
      | attributeError => simp

theorem telemetryBlock_logs (r : PyDict) :
    (telemetryBlock r).2.1 = [] ∨
    ∃ k, (telemetryBlock r).2.1 = [(LogLevel.debug, LogItem.pyErr (PyErr.keyError k))] := by
  unfold telemetryBlock
  rcases htr : telemetryRun r with ⟨fs, oe⟩
  cases oe with
  | none => simp
  | some e => cases e <;> simp

theorem commentBlock_logs (r : PyDict) :
    (commentBlock r).2.1 = [] ∨
    ∃ e, (commentBlock r).2.1 = [(LogLevel.error, LogItem.pyErr e)] := by
  unfold commentBlock
  cases hen : pyEncodeAscii (pyGet r "comment") with
  | ok c => by_cases hic : c.isEmpty = true <;> simp [hic]
  | error e => cases e <;> simp

theorem erroredPackets_append (a b : List LogEntry) :
    erroredPackets (a ++ b) = erroredPackets a ++ erroredPackets b := by
  simp [erroredPackets, List.filterMap_append]

theorem jsonToLineProtocol_ok_cases (r : PyDict) (res : Option String)
    (logs : List LogEntry) (h : jsonToLineProtocol r = .ok (res, logs)) :
    ((∃ f, pySub r "format" = .ok f ∧ pyEqStr f "uncompressed" = false) ∧
      res = none ∧ logs = []) ∨
    (pySub r "format" = .ok (JVal.vstr "uncompressed") ∧
     logs = (telemetryBlock r).2.1 ++ (commentBlock r).2.1 ∧
     res = some ("packet" ++ "," ++ ",".intercalate (tagList r) ++ " " ++
        ",".intercalate (numericFields r ++ (telemetryBlock r).1 ++ (commentBlock r).1))) := by
  unfold jsonToLineProtocol at h
  split at h
  · exact absurd h (by simp)
  next fmt heq =>
    by_cases hfmt : pyEqStr fmt "uncompressed" = true
    · rw [if_pos hfmt] at h
      right
      have hf : fmt = JVal.vstr "uncompressed" := (pyEqStr_true_iff fmt _).mp hfmt
      subst hf
      refine ⟨heq, ?_⟩
      rcases hte : telemetryBlock r with ⟨tf, tl, te⟩
      rw [hte] at h
      cases te with
      | some e => exact absurd h (by simp)
      | none =>
        rcases hco : commentBlock r with ⟨cf, cl, ce⟩
        rw [hco] at h
        cases ce with
        | some e => exact absurd h (by simp)
        | none =>
          simp only [Except.ok.injEq, Prod.mk.injEq] at h
          exact ⟨h.2.symm, h.1.symm⟩
    · rw [if_neg hfmt] at h
      left
      have hb : pyEqStr fmt "uncompressed" = false := by
        revert hfmt; cases pyEqStr fmt "uncompressed" <;> simp
      simp only [Except.ok.injEq, Prod.mk.injEq] at h
      exact ⟨⟨fmt, heq, hb⟩, h.1.symm, h.2.symm⟩

theorem jsonToLineProtocol_ok_shape (r : PyDict)
    (hfmt : r.lookup "format" = some (JVal.vstr "uncompressed"))
    (res : Option String) (logs : List LogEntry)
    (h : jsonToLineProtocol r = .ok (res, logs)) :
    res = some ("packet" ++ "," ++ ",".intercalate (tagList r) ++ " " ++
        ",".intercalate (numericFields r ++ (telemetryBlock r).1 ++ (commentBlock r).1)) ∧
    logs = (telemetryBlock r).2.1 ++ (commentBlock r).2.1 := by
  have hps : pySub r "format" = .ok (JVal.vstr "uncompressed") := by
    unfold pySub; rw [hfmt]
  rcases jsonToLineProtocol_ok_cases r res logs h with ⟨⟨f, hf, hfe⟩, _, _⟩ | ⟨_, hl, hres⟩
  · rw [hps] at hf
    injection hf with hf
    rw [← hf] at hfe
    simp [pyEqStr] at hfe
  · exact ⟨hres, hl⟩

theorem jsonToLineProtocol_no_packet_logs (r : PyDict) (res : Option String)
    (logs : List LogEntry) (h : jsonToLineProtocol r = .ok (res, logs)) :
    erroredPackets logs = [] := by
  rcases jsonToLineProtocol_ok_cases r res logs h with ⟨_, _, hl⟩ | ⟨_, hl, _⟩
  · rw [hl]; rfl
  · rw [hl, erroredPackets_append]
    have h1 : erroredPackets (telemetryBlock r).2.1 = [] := by
      rcases telemetryBlock_logs r with ht | ⟨k, ht⟩ <;> rw [ht] <;> rfl
    have h2 : erroredPackets (commentBlock r).2.1 = [] := by
      rcases commentBlock_logs r with hc | ⟨e, hc⟩ <;> rw [hc] <;> rfl
    rw [h1, h2]; rfl

/-! ### Concrete records used by the claims -/

/-- Uncompressed record whose telemetry `vals` list has fewer than 5
entries. -/
def c1rec : PyDict :=
  [("format", JVal.vstr "uncompressed"),
   ("telemetry", JVal.vdict [("seq", JVal.vint 5), ("vals", JVal.vlist [JVal.vint 1])])]

/-- Uncompressed record with no `from` and no `to` key, carrying an ASCII
comment so that the comment block succeeds and a line is actually
produced. -/
def c2rec : PyDict :=
  [("format", JVal.vstr "uncompressed"), ("comment", JVal.vstr "hello")]

/-- The record `{format:"uncompressed", from:"A", to:"B"}`. -/
def c3rec : PyDict :=
  [("format", JVal.vstr "uncompressed"),
   ("from", JVal.vstr "A"), ("to", JVal.vstr "B")]

/-! ### Claims -/

/-- C10. A Decoded Record lacking a `format` key makes `jsonToLineProtocol`
raise `KeyError` (the record's format is read by unguarded subscripting
before any exception handling), instead of returning absent. -/
theorem C10_missing_format (r : PyDict) (h : r.lookup "format" = none) :
    jsonToLineProtocol r = Except.error (PyErr.keyError "format") := by
  have hps : pySub r "format" = .error (.keyError "format") := by
    unfold pySub; rw [h]
  unfold jsonToLineProtocol
  simp only [hps]

/-- Witness for C10 at the record `{from:"A"}`. -/
theorem C10_witness :
    jsonToLineProtocol [("from", JVal.vstr "A")] =
      Except.error (PyErr.keyError "format") :=
  C10_missing_format _ rfl

/-- C9. The encoder is a deterministic pure function of its input record:
two calls on the same (immutable) record return identical results, in
particular identical strings.  (In the embedding the encoder reads nothing
but its argument — the source touches no mutable state except the log
sink — so this is definitional.) -/
theorem C9_deterministic (r₁ r₂ : PyDict) (h : r₁ = r₂) :
    jsonToLineProtocol r₁ = jsonToLineProtocol r₂ := by rw [h]

/-- Witness for C9 on a concrete record. -/
theorem C9_witness :
    jsonToLineProtocol [("format", JVal.vstr "status")] =
      jsonToLineProtocol [("format", JVal.vstr "status")] :=
  C9_deterministic _ _ rfl

/-- C4. A record whose `format` value is not the string `"uncompressed"`
encodes to absent with no exception; a record with format `"uncompressed"`
whose fields permit encoding yields a line `packet,<tags> <fields>`:
non-absent, with the `packet,` prefix and a single space between the tag
clause and the field clause. -/
theorem C4_format_gate :
    (∀ (r : PyDict) (f : JVal), r.lookup "format" = some f →
        f ≠ JVal.vstr "uncompressed" → jsonToLineProtocol r = .ok (none, [])) ∧
    (∀ r : PyDict, r.lookup "format" = some (JVal.vstr "uncompressed") →
        ∀ res logs, jsonToLineProtocol r = .ok (res, logs) →
          ∃ tagStr fieldsStr,
            res = some ("packet" ++ "," ++ tagStr ++ " " ++ fieldsStr) ∧
            ∃ rest, "packet" ++ "," ++ tagStr ++ " " ++ fieldsStr = "packet," ++ rest) := by
  constructor
  · intro r f hf hne
    have hps : pySub r "format" = .ok f := by unfold pySub; rw [hf]
    have hfe : pyEqStr f "uncompressed" = false := by
      cases hpe : pyEqStr f "uncompressed"
      · rfl
      · exact absurd ((pyEqStr_true_iff f _).mp hpe) hne
    unfold jsonToLineProtocol
    simp only [hps]
    simp [hfe]
  · intro r hf res logs h
    obtain ⟨hres, -⟩ := jsonToLineProtocol_ok_shape r hf res logs h
    refine ⟨",".intercalate (tagList r),
      ",".intercalate (numericFields r ++ (telemetryBlock r).1 ++ (commentBlock r).1),
      hres, ?_⟩
    refine ⟨",".intercalate (tagList r) ++
      (" " ++ ",".intercalate (numericFields r ++ (telemetryBlock r).1 ++ (commentBlock r).1)), ?_⟩
    rw [String.append_assoc, String.append_assoc]
    have hpl : ("packet" ++ "," : String) = "packet," := rfl
    rw [hpl]

/-- Witness for C4 at a `mic-e` record. -/
theorem C4_witness :
    jsonToLineProtocol [("format", JVal.vstr "mic-e")] = Except.ok (none, []) :=
  C4_format_gate.1 _ (JVal.vstr "mic-e") rfl
    (by intro hh; injection hh with hh; exact absurd hh (by decide))

/-- C3. The claim is the intended behavior, but the code has a slip: for
`{format:"uncompressed", from:"A", to:"B"}` (no comment key) the five
numeric fields do default to `0` exactly as claimed — the field list built
before the comment block is
`latitude=0,longitude=0,posAmbiguity=0,altitude=0,speed=0` — yet the
encoder then raises an uncaught `AttributeError` from `None.encode` on the
absent comment instead of returning the claimed line.  The dead
`except TypeError` handler around the comment block shows the absent-comment
case was meant to be caught non-fatally (its author expected `TypeError`
where Python 2 raises `AttributeError`), so the claim reflects the intent
and the code is the bug. -/
theorem C3_code_bug :
    jsonToLineProtocol c3rec = Except.error PyErr.attributeError ∧
    tagList c3rec = ["from=A", "to=B", "format=uncompressed"] ∧
    numericFields c3rec =
      ["latitude=0", "longitude=0", "posAmbiguity=0", "altitude=0", "speed=0"] :=
  ⟨rfl, rfl, rfl⟩

/-- C8. Every heartbeat iteration sends the status line embedding the
configured callsign and the integer epoch timestamp read at that iteration,
then sleeps `interval * 60` seconds (`interval` in minutes, fractional
allowed), for every iteration index (the loop repeats forever); at interval
`0.5` the sleep between consecutive sends is exactly 30 seconds. -/
theorem C8_heartbeat (callsign : String) (interval : ℚ) (clock : ℕ → Int) (n : ℕ) :
    (heartbeatTrace callsign interval clock n).sent =
      callsign ++ ">APRS,TCPIP*:>aprs2influxdb heartbeat " ++ toString (clock n) ∧
    (heartbeatTrace callsign interval clock n).sleepSeconds = interval * 60 ∧
    (interval = 1/2 → (heartbeatTrace callsign interval clock n).sleepSeconds = 30) := by
  refine ⟨rfl, rfl, ?_⟩
  intro h
  show interval * 60 = 30
  rw [h]
  norm_num

/-- Witness for C8 at callsign `nocall`, interval one half, a constant
clock, iteration 0. -/
theorem C8_witness :
    (heartbeatTrace "nocall" (1/2) (fun _ => 1712345678) 0).sleepSeconds = 30 :=
  (C8_heartbeat "nocall" (1/2) (fun _ => 1712345678) 0).2.2 rfl

theorem intercalate_append_ne_nil (s x : String) (ys : List String) (h : ys ≠ []) :
    s.intercalate (ys ++ [x]) = s.intercalate ys ++ s ++ x := by
  cases ys with
  | nil => exact absurd rfl h
  | cons a as => exact intercalate_append_singleton s x a as

/-- C1 counterexample: an uncompressed record whose telemetry `vals` list has
a single entry makes the encoder raise an uncaught `IndexError` — the
telemetry handler catches only `KeyError` — so no line is returned. -/
theorem C1_counterexample :
    c1rec.lookup "format" = some (JVal.vstr "uncompressed") ∧
    jsonToLineProtocol c1rec = Except.error PyErr.indexError :=
  ⟨rfl, rfl⟩

/-- C1 amended: for uncompressed records every missing-key (`KeyError`)
failure — tags, numeric fields, absent telemetry — is caught inside the
encoder, so the encoder never raises a `KeyError`; and whenever it returns
normally it returns a (partial) line, never absent.  It can still raise: a
telemetry `vals` list with fewer than 5 entries raises an uncaught
`IndexError`, and an absent comment raises an uncaught `AttributeError`
from `None.encode` (the handlers catch only `UnicodeError` and
`TypeError`). -/
theorem C1_no_keyError_partial_line (r : PyDict)
    (hfmt : r.lookup "format" = some (JVal.vstr "uncompressed")) :
    (∀ k, jsonToLineProtocol r ≠ Except.error (PyErr.keyError k)) ∧
    (∀ res logs, jsonToLineProtocol r = .ok (res, logs) → ∃ s, res = some s) := by
  have hps : pySub r "format" = .ok (JVal.vstr "uncompressed") := by
    unfold pySub; rw [hfmt]
  constructor
  · intro k hcontra
    unfold jsonToLineProtocol at hcontra
    simp only [hps] at hcontra
    rw [if_pos (show pyEqStr (JVal.vstr "uncompressed") "uncompressed" = true from rfl)]
      at hcontra
    rcases hte : telemetryBlock r with ⟨tf, tl, te⟩
    rw [hte] at hcontra
    cases te with
    | some e =>
        injection hcontra with he
        exact telemetryBlock_ne_keyError r k (by rw [hte, he])
    | none =>
        rcases hco : commentBlock r with ⟨cf, cl, ce⟩
        rw [hco] at hcontra
        cases ce with
        | some e =>
            injection hcontra with he
            rcases commentBlock_err_cases r with hc | hc
            · rw [hco] at hc; simp at hc
            · rw [hco] at hc
              simp at hc
              rw [hc] at he
              exact PyErr.noConfusion he
        | none => exact absurd hcontra (by simp)
  · intro res logs h
    obtain ⟨hres, -⟩ := jsonToLineProtocol_ok_shape r hfmt res logs h
    exact ⟨_, hres⟩

/-- Witness for C1 at a record with no telemetry at all: the caught-and-
logged `KeyError` does not escape. -/
theorem C1_witness :
    jsonToLineProtocol [("format", JVal.vstr "uncompressed")] ≠
      Except.error (PyErr.keyError "telemetry") :=
  (C1_no_keyError_partial_line [("format", JVal.vstr "uncompressed")] rfl).1 "telemetry"

/-- C2 counterexample: with `from` and `to` absent the encoder does not omit
those tags — `jsonData.get` returns `None`, so the comma-joined tag set is
`from=None,to=None,format=uncompressed` and the line that is returned (the
record carries an encodable comment, so one is) shows the spurious
`from=None` and `to=None` tags. -/
theorem C2_counterexample :
    c2rec.lookup "from" = none ∧ c2rec.lookup "to" = none ∧
    tagList c2rec = ["from=None", "to=None", "format=uncompressed"] ∧
    jsonToLineProtocol c2rec =
      Except.ok (some ("packet,from=None,to=None,format=uncompressed " ++
          "latitude=0,longitude=0,posAmbiguity=0,altitude=0,speed=0,comment=\"hello\""),
        [(LogLevel.debug, LogItem.pyErr (PyErr.keyError "telemetry"))]) :=
  ⟨rfl, rfl, rfl, rfl⟩

/-- C2 amended: when `from` and `to` are absent from an uncompressed record,
the missing keys are per-field and non-fatal to the tag block, but the tags
are not omitted: they are rendered as `from=None` and `to=None` (Python
`dict.get` returns `None`, which `str.format` prints; the `except KeyError`
around the tag appends is unreachable), and every line the encoder returns
for such a record carries that three-entry tag clause. -/
theorem C2_none_tags (r : PyDict)
    (hfmt : r.lookup "format" = some (JVal.vstr "uncompressed"))
    (hfrom : r.lookup "from" = none) (hto : r.lookup "to" = none) :
    tagList r = ["from=None", "to=None", "format=uncompressed"] ∧
    ∀ res logs, jsonToLineProtocol r = .ok (res, logs) →
      ∃ fs, res = some ("packet" ++ "," ++
        ",".intercalate ["from=None", "to=None", "format=uncompressed"] ++ " " ++ fs) := by
  have hf : pyGet r "from" = JVal.vnone := by unfold pyGet; rw [hfrom]; rfl
  have ht : pyGet r "to" = JVal.vnone := by unfold pyGet; rw [hto]; rfl
  have hm : pyGet r "format" = JVal.vstr "uncompressed" := by unfold pyGet; rw [hfmt]; rfl
  have htags : tagList r = ["from=None", "to=None", "format=uncompressed"] := by
    unfold tagList; rw [hf, ht, hm]; rfl
  refine ⟨htags, ?_⟩
  intro res logs h
  obtain ⟨hres, -⟩ := jsonToLineProtocol_ok_shape r hfmt res logs h
  rw [htags] at hres
  exact ⟨_, hres⟩

/-- Witness for C2 at the record with only a `format` key. -/
theorem C2_witness :
    tagList [("format", JVal.vstr "uncompressed")] =
      ["from=None", "to=None", "format=uncompressed"] :=
  (C2_none_tags [("format", JVal.vstr "uncompressed")] rfl rfl rfl).1

/-- The record with telemetry `{seq:5, vals:[1,2,3,4,5], bits:"10101"}`. -/
def c5rec : PyDict :=
  [("format", JVal.vstr "uncompressed"),
   ("telemetry", JVal.vdict
     [("seq", JVal.vint 5),
      ("vals", JVal.vlist
        [JVal.vint 1, JVal.vint 2, JVal.vint 3, JVal.vint 4, JVal.vint 5]),
      ("bits", JVal.vstr "10101")])]

/-- Record with the same telemetry plus an ASCII comment, so that the
comment block succeeds and the telemetry fields land in an actual output
line. -/
def c5full : PyDict :=
  [("format", JVal.vstr "uncompressed"),
   ("telemetry", JVal.vdict
     [("seq", JVal.vint 5),
      ("vals", JVal.vlist
        [JVal.vint 1, JVal.vint 2, JVal.vint 3, JVal.vint 4, JVal.vint 5]),
      ("bits", JVal.vstr "10101")]),
   ("comment", JVal.vstr "beacon")]

/-- C5. On a record with telemetry `{seq:5, vals:[1,2,3,4,5], bits:"10101"}`
the telemetry block appends exactly
`sequenceNumber=5,analog1=1,...,analog5=5,digital=10101` in that order
(positionally from `vals`); on such a record that also encodes (it carries
an ASCII comment — a record with no comment key raises in the later comment
block before any line is returned) those fields appear in the produced line
in that order; and in general the telemetry block appends at least one field
if and only if the record has a telemetry structure whose `seq` entry is
present and truthy. -/
theorem C5_telemetry :
    (telemetryRun c5rec).1 =
      ["sequenceNumber=5", "analog1=1", "analog2=2", "analog3=3",
       "analog4=4", "analog5=5", "digital=10101"] ∧
    jsonToLineProtocol c5full =
      Except.ok (some ("packet,from=None,to=None,format=uncompressed " ++
          "latitude=0,longitude=0,posAmbiguity=0,altitude=0,speed=0," ++
          "sequenceNumber=5,analog1=1,analog2=2,analog3=3,analog4=4,analog5=5,digital=10101," ++
          "comment=\"beacon\""),
        []) ∧
    ∀ r : PyDict, ((telemetryRun r).1 ≠ [] ↔
      ∃ tele, pySub r "telemetry" = .ok tele ∧
        ∃ seq, pySubK tele "seq" = .ok seq ∧ pyTruthy seq = true) := by
  refine ⟨rfl, rfl, ?_⟩
  intro r
  constructor
  · intro hne
    unfold telemetryRun at hne
    cases h1 : pySub r "telemetry" with
    | error e => simp only [h1] at hne; simp at hne
    | ok tele =>
        simp only [h1] at hne
        cases h2 : pySubK tele "seq" with
        | error e => simp only [h2] at hne; simp at hne
        | ok seq =>
            simp only [h2] at hne
            cases h3 : pyTruthy seq with
            | false => simp only [h3] at hne; simp at hne
            | true => exact ⟨tele, rfl, seq, h2, h3⟩
  · rintro ⟨tele, h1, seq, h2, h3⟩
    unfold telemetryRun
    simp only [h1, h2, h3]
    simp [appendUntilErr]

/-- Witness for C5: the telemetry block of the example record is
non-empty. -/
theorem C5_witness : (telemetryRun c5rec).1 ≠ [] :=
  (C5_telemetry.2.2 c5rec).mpr
    ⟨JVal.vdict
      [("seq", JVal.vint 5),
       ("vals", JVal.vlist
         [JVal.vint 1, JVal.vint 2, JVal.vint 3, JVal.vint 4, JVal.vint 5]),
       ("bits", JVal.vstr "10101")], rfl, JVal.vint 5, rfl, rfl⟩

/-- The record whose comment is `He said "hi"`. -/
def c6rec : PyDict :=
  [("format", JVal.vstr "uncompressed"),
   ("comment", JVal.vstr "He said \"hi\"")]

/-- C6. A present, non-empty, all-ASCII comment appears in the output as a
double-quoted `comment` field with every embedded double-quote character
removed; in particular comment `He said "hi"` yields
`comment="He said hi"`. -/
theorem C6_comment :
    commentBlock c6rec = (["comment=\"He said hi\""], [], none) ∧
    jsonToLineProtocol c6rec =
      Except.ok (some ("packet,from=None,to=None,format=uncompressed " ++
          "latitude=0,longitude=0,posAmbiguity=0,altitude=0,speed=0,comment=\"He said hi\""),
        [(LogLevel.debug, LogItem.pyErr (PyErr.keyError "telemetry"))]) ∧
    ∀ (r : PyDict) (c : String),
      r.lookup "format" = some (JVal.vstr "uncompressed") →
      r.lookup "comment" = some (JVal.vstr c) →
      c.data.all (fun ch => ch.toNat < 128) = true → c ≠ "" →
      (commentBlock r = (["comment=\"" ++ pyRemoveQuotes c ++ "\""], [], none) ∧
       ∀ s logs, jsonToLineProtocol r = .ok (some s, logs) →
         ∃ pre, s = pre ++ "," ++ ("comment=\"" ++ pyRemoveQuotes c ++ "\"")) := by
  refine ⟨rfl, rfl, ?_⟩
  intro r c hfmt hcom hascii hne
  have hpg : pyGet r "comment" = JVal.vstr c := by unfold pyGet; rw [hcom]; rfl
  have hen : pyEncodeAscii (pyGet r "comment") = .ok c := by
    rw [hpg]; simp only [pyEncodeAscii]; rw [if_pos hascii]
  have hie : c.isEmpty = false := by
    cases hv : c.isEmpty
    · rfl
    · exact absurd ((String.isEmpty_iff c).mp hv) hne
  have hcb : commentBlock r = (["comment=\"" ++ pyRemoveQuotes c ++ "\""], [], none) := by
    unfold commentBlock
    simp only [hen]
    simp [hie]
  refine ⟨hcb, ?_⟩
  intro s logs h
  obtain ⟨hres, -⟩ := jsonToLineProtocol_ok_shape r hfmt (some s) logs h
  injection hres with hs
  simp only [hcb] at hs
  have hy : numericFields r ++ (telemetryBlock r).1 ≠ [] := by
    apply List.append_ne_nil_of_left_ne_nil
    unfold numericFields; simp
  rw [intercalate_append_ne_nil ","
    ("comment=\"" ++ pyRemoveQuotes c ++ "\"")
    (numericFields r ++ (telemetryBlock r).1) hy] at hs
  refine ⟨"packet" ++ "," ++ ",".intercalate (tagList r) ++ " " ++
    ",".intercalate (numericFields r ++ (telemetryBlock r).1), ?_⟩
  rw [hs]
  simp only [String.append_assoc]

/-- Witness for C6 on the record with comment `ok`. -/
theorem C6_witness :
    commentBlock [("format", JVal.vstr "uncompressed"), ("comment", JVal.vstr "ok")] =
      (["comment=\"ok\""], [], none) :=
  (C6_comment.2.2 [("format", JVal.vstr "uncompressed"), ("comment", JVal.vstr "ok")]
    "ok" rfl rfl rfl (by decide)).1

/-- The record `{format:"uncompressed", from:"A", to:"B", comment:"hi"}` as
fed to the consumer handler (the comment makes the encoder succeed, so the
handler reaches the storage write). -/
def c7rec : PyDict :=
  [("format", JVal.vstr "uncompressed"),
   ("from", JVal.vstr "A"), ("to", JVal.vstr "B"),
   ("comment", JVal.vstr "hi")]

/-- A storage backend whose every write raises `InfluxDBClientError`. -/
def clientFailWrite : String → Option WriteErr :=
  fun _ => some (.clientError "write failed")

/-- A storage backend whose every write raises a generic `StandardError`. -/
def stdFailWrite : String → Option WriteErr :=
  fun _ => some (.standardError "write failed")

/-- The line `c7rec` encodes to. -/
def c7line : String :=
  "packet,from=A,to=B,format=uncompressed " ++
  "latitude=0,longitude=0,posAmbiguity=0,altitude=0,speed=0,comment=\"hi\""

/-- The log entries the encoder emits on `c7rec` (the caught telemetry
`KeyError` at debug severity). -/
def c7encLogs : List LogEntry :=
  [(LogLevel.debug, LogItem.pyErr (PyErr.keyError "telemetry"))]

/-- C7 counterexample: when the storage write raises the storage-client
error kind (`InfluxDBClientError`), the handler catches it and returns
normally, but no record is logged at error severity — the offending record
is not logged together with the error (only the generic `StandardError`
branch logs the packet; the client-error branch logs the error alone). -/
theorem C7_counterexample :
    clientFailWrite c7line = some (WriteErr.clientError "write failed") ∧
    (callback clientFailWrite c7rec).2 = none ∧
    erroredPackets (callback clientFailWrite c7rec).1 = [] :=
  ⟨rfl, rfl, rfl⟩

/-- C7 amended: both write-error kinds are caught and the handler returns
normally, so a write failure for one record never prevents the handling of
the following records; the offending record is logged at error severity
together with the error for a generic `StandardError`, while for the
storage-client error kind only the error is logged. -/
theorem C7_write_failures (w : String → Option WriteErr) (p : PyDict)
    (line : String) (encLogs : List LogEntry)
    (henc : jsonToLineProtocol p = .ok (some line, encLogs)) :
    (∀ m, w line = some (WriteErr.standardError m) →
        (callback w p).2 = none ∧ p ∈ erroredPackets (callback w p).1) ∧
    (∀ m, w line = some (WriteErr.clientError m) →
        (callback w p).2 = none ∧ erroredPackets (callback w p).1 = []) ∧
    (∀ ps, (callback w p).2 = none →
        consumerRun w (p :: ps) =
          ((p, (callback w p).1) :: (consumerRun w ps).1, (consumerRun w ps).2)) := by
  refine ⟨?_, ?_, ?_⟩
  · intro m hw
    unfold callback
    simp only [henc, hw]
    refine ⟨trivial, ?_⟩
    simp [erroredPackets, List.filterMap_cons, List.filterMap_append]
  · intro m hw
    unfold callback
    simp only [henc, hw]
    refine ⟨trivial, ?_⟩
    have hnop : erroredPackets encLogs = [] :=
      jsonToLineProtocol_no_packet_logs p (some line) encLogs henc
    simp only [erroredPackets, List.filterMap_cons, List.filterMap_append] at hnop ⊢
    simp [hnop]
  · intro ps hnone
    rcases hc : callback w p with ⟨logs, err⟩
    rw [hc] at hnone
    simp only at hnone
    subst hnone
    conv_lhs => rw [consumerRun]
    simp only [hc]

/-- Witness for C7: a generic write failure on `c7rec` is caught, the record
is logged at error severity, and the loop continues. -/
theorem C7_witness :
    (callback stdFailWrite c7rec).2 = none ∧
    c7rec ∈ erroredPackets (callback stdFailWrite c7rec).1 :=
  (C7_write_failures stdFailWrite c7rec c7line c7encLogs rfl).1 "write failed" rfl
